import Mathlib

/-!
Shallow embedding of the core of the FLAKE tool (grid/distance/symmetry engine,
parameter mappers, color interpolation, preset round-trip) from
src/grid.js, src/main.js, src/presets.js and src/state.js, together with
theorems settling the specification claims.

JavaScript numbers are modelled by real numbers; the places where the source
can produce NaN or Infinity (division by a zero half-diagonal) are modelled
explicitly by the JSNum type below.  Color strings are modelled as lists of
characters so that bit-for-bit string claims are expressible; the purely
rational color arithmetic uses the rationals so that it stays executable.
-/

/-- Result of a JavaScript floating-point computation that may be NaN or an
infinity: either a finite real value, NaN, or a signed infinity. -/
inductive JSNum where
  | nan : JSNum
  | posInf : JSNum
  | negInf : JSNum
  | val (x : ℝ) : JSNum

/-- JavaScript division a / b: division by zero gives NaN for 0/0 and a
signed infinity otherwise; ordinary real division elsewhere. -/
noncomputable def jsDiv (a b : ℝ) : JSNum :=
  if b = 0 then
    if a = 0 then JSNum.nan
    else if 0 < a then JSNum.posInf
    else JSNum.negInf
  else JSNum.val (a / b)

/-- JavaScript Math.min of a possibly non-finite number and a finite bound:
Math.min(NaN, c) is NaN, Math.min(Infinity, c) is c. -/
noncomputable def jsMin (a : JSNum) (c : ℝ) : JSNum :=
  match a with
  | JSNum.nan => JSNum.nan
  | JSNum.posInf => JSNum.val c
  | JSNum.negInf => JSNum.negInf
  | JSNum.val x => JSNum.val (min x c)

/-- The finite value carried by a JSNum, defaulting to 0; used only under a
hypothesis that the number is in fact finite. -/
noncomputable def JSNum.toVal : JSNum → ℝ
  | JSNum.val x => x
  | _ => 0

/-- The grid section of the state store (state.js, export const grid). -/
structure GridState where
  cols : ℕ
  rows : ℕ
  cellSize : ℝ
  offsetX : ℝ
  offsetY : ℝ
  symmetry : String
  symmetryCount : ℕ

noncomputable section

/-- grid.js getGridCenter: center of the grid. -/
def getGridCenter (g : GridState) : ℝ × ℝ :=
  ((g.cols * g.cellSize) / 2 + g.offsetX,
   (g.rows * g.cellSize) / 2 + g.offsetY)

/-- grid.js getNormalizedDistance: Euclidean distance from (x, y) to the grid
center divided by the half-diagonal, clamped by Math.min against 1.  The
division is JavaScript division, so a zero half-diagonal yields NaN (at the
center) or Infinity (elsewhere, which Math.min clamps to 1). -/
def getNormalizedDistance (g : GridState) (x y : ℝ) : JSNum :=
  let center := getGridCenter g
  let maxDist := Real.sqrt ((g.cols * g.cellSize / 2) ^ 2 + (g.rows * g.cellSize / 2) ^ 2)
  let dist := Real.sqrt ((x - center.1) ^ 2 + (y - center.2) ^ 2)
  jsMin (jsDiv dist maxDist) 1

end

/-- A cell instance as produced by grid.js applySymmetry and getGridCells.
Radial copies carry an extra per-instance rotation property; all other
instances leave it absent (none). -/
structure Cell where
  x : ℝ
  y : ℝ
  col : ℤ
  row : ℤ
  dist : JSNum
  isOriginal : Bool
  rotation : Option ℝ

/-- Math.atan2(y, x), modelled by the argument of the complex number x + y i
(range (-pi, pi], with atan2(0, 0) = 0, as in JavaScript). -/
noncomputable def atan2 (y x : ℝ) : ℝ := Complex.arg (Complex.mk x y)

noncomputable section

/-- grid.js applySymmetry: expand one base cell into its list of symmetry
instances, the original first.  The switch on grid.symmetry is modelled by a
chain of string comparisons with the same default behavior (no extra
instances for an unrecognized mode). -/
def applySymmetry (g : GridState) (x y : ℝ) (col row : ℤ) (dist : JSNum)
    (center : ℝ × ℝ) : List Cell :=
  let original : Cell := ⟨x, y, col, row, dist, true, none⟩
  if g.symmetry = "horizontal" then
    [original, ⟨center.1 * 2 - x, y, (g.cols : ℤ) - 1 - col, row, dist, false, none⟩]
  else if g.symmetry = "vertical" then
    [original, ⟨x, center.2 * 2 - y, col, (g.rows : ℤ) - 1 - row, dist, false, none⟩]
  else if g.symmetry = "both" then
    [original,
     ⟨center.1 * 2 - x, y, (g.cols : ℤ) - 1 - col, row, dist, false, none⟩,
     ⟨x, center.2 * 2 - y, col, (g.rows : ℤ) - 1 - row, dist, false, none⟩,
     ⟨center.1 * 2 - x, center.2 * 2 - y, (g.cols : ℤ) - 1 - col,
      (g.rows : ℤ) - 1 - row, dist, false, none⟩]
  else if g.symmetry = "radial" then
    let dx := x - center.1
    let dy := y - center.2
    let baseAngle := atan2 dy dx
    let radius := Real.sqrt (dx * dx + dy * dy)
    original ::
      (List.range (g.symmetryCount - 1)).map (fun j =>
        let i : ℕ := j + 1
        let angle := baseAngle + (Real.pi * 2 * (i : ℝ)) / (g.symmetryCount : ℝ)
        ⟨center.1 + Real.cos angle * radius, center.2 + Real.sin angle * radius,
         col, row, dist, false, some ((360 * (i : ℝ)) / (g.symmetryCount : ℝ))⟩)
  else
    [original]

/-- grid.js getGridCells: row-major traversal of the base lattice, expanding
each base cell through applySymmetry and concatenating the results. -/
def getGridCells (g : GridState) : List Cell :=
  let center := getGridCenter g
  (List.range g.rows).flatMap (fun row =>
    (List.range g.cols).flatMap (fun col =>
      let x := col * g.cellSize + g.cellSize / 2 + g.offsetX
      let y := row * g.cellSize + g.cellSize / 2 + g.offsetY
      let dist := getNormalizedDistance g x y
      applySymmetry g x y col row dist center))

end

/-- The shape section of the state store (state.js, export const shape).
Colors are lists of characters; mode selectors are strings. -/
structure ShapeState where
  type : String
  size : ℝ
  rotation : ℝ
  rotationAuto : Bool
  rotationSpeed : ℝ
  scaleMode : String
  scaleMin : ℝ
  scaleMax : ℝ
  scalePower : ℝ
  rotateMode : String
  rotateMin : ℝ
  rotateMax : ℝ
  fillMode : String
  fillColor : List Char
  fillOpacity : ℝ
  strokeMode : String
  strokeColor : List Char
  strokeWeight : ℝ
  strokeOpacity : ℝ
  blendMode : String

/-- The pattern section of the state store (state.js, export const pattern). -/
structure PatternState where
  enabled : Bool
  seed : ℝ
  noiseScale : ℝ
  noiseIntensity : ℝ

/-- The animation section of the state store (state.js, export const
animation), restricted to the fields the embedded functions read. -/
structure AnimState where
  enabled : Bool
  playing : Bool
  speed : ℝ
  loopDuration : ℝ
  animateSize : Bool
  animateRotation : Bool
  animateColor : Bool

namespace easings

noncomputable section

/-- state.js easings.linear. -/
def linear (t : ℝ) : ℝ := t

/-- state.js easings.easeIn. -/
def easeIn (t : ℝ) : ℝ := t * t

/-- state.js easings.easeOut. -/
def easeOut (t : ℝ) : ℝ := 1 - (1 - t) * (1 - t)

/-- state.js easings.easeInOut. -/
def easeInOut (t : ℝ) : ℝ :=
  if t < 0.5 then 2 * t * t else 1 - (-2 * t + 2) ^ 2 / 2

/-- state.js easings.step. -/
def step (t : ℝ) : ℝ := if 0.5 < t then 1 else 0

/-- state.js easings.swirl. -/
def swirl (t power : ℝ) : ℝ := Real.sin (t * Real.pi * power) * 0.5 + 0.5

end

end easings

noncomputable section

/-- state.js calculateScale: distance-based scale factor.  Mode none returns
shape.size directly; the switch over the remaining modes is modelled by a
chain of string comparisons whose default arm is the linear easing. -/
def calculateScale (sh : ShapeState) (distNormalized : ℝ) : ℝ :=
  if sh.scaleMode = "none" then sh.size
  else
    let t := 1 - distNormalized
    let eased :=
      if sh.scaleMode = "easeIn" then easings.easeIn t
      else if sh.scaleMode = "easeOut" then easings.easeOut t
      else if sh.scaleMode = "easeInOut" then easings.easeInOut t
      else if sh.scaleMode = "step" then easings.step t
      else if sh.scaleMode = "swirl" then easings.swirl t sh.scalePower
      else easings.linear t
    sh.scaleMin + (sh.scaleMax - sh.scaleMin) * eased

/-- state.js calculateRotation: distance-based rotation offset. -/
def calculateRotation (sh : ShapeState) (distNormalized baseRotation : ℝ) : ℝ :=
  if sh.rotateMode = "none" then baseRotation
  else
    let t := 1 - distNormalized
    let eased :=
      if sh.rotateMode = "easeIn" then easings.easeIn t
      else if sh.rotateMode = "easeOut" then easings.easeOut t
      else easings.linear t
    baseRotation + sh.rotateMin + (sh.rotateMax - sh.rotateMin) * eased

/-- grid.js getNoiseValue: normalized noise sample for a distance and time.
The external simplex noise sampler is passed in as a function, per the noise
sampler contract. -/
def getNoiseValue (noise2D : ℝ → ℝ → ℝ) (pat : PatternState)
    (dist time : ℝ) : ℝ :=
  if !pat.enabled then 0.5
  else
    let nx := dist * pat.noiseScale * 10 + pat.seed
    let ny := time * pat.noiseScale + pat.seed
    (noise2D nx ny + 1) * 0.5

/-- grid.js getShapeSize: cell size times shape.size, scaled by
calculateScale and, when the pattern is enabled, by the noise factor. -/
def getShapeSize (noise2D : ℝ → ℝ → ℝ) (g : GridState) (sh : ShapeState)
    (pat : PatternState) (dist time : ℝ) : ℝ :=
  let baseSize := g.cellSize * sh.size
  let scale := calculateScale sh dist
  let scale :=
    if pat.enabled then scale * (0.5 + getNoiseValue noise2D pat dist time * 0.5)
    else scale
  baseSize * scale

/-- grid.js getShapeRotation: calculateRotation plus the auto-rotation term. -/
def getShapeRotation (sh : ShapeState) (dist baseRotation time : ℝ) : ℝ :=
  let rotation := calculateRotation sh dist baseRotation
  if sh.rotationAuto then rotation + time * 360 * sh.rotationSpeed
  else rotation

/-- main.js drawCell, rotation computation only: the cell is destructured as
const (x, y, dist) = cell, the rotation drawn is getShapeRotation of that
dist plus, when the animation is enabled and playing with animateRotation
set, the time-based term.  The per-instance rotation tag carried by radial
symmetry copies is never read here. -/
def drawCellRotation (sh : ShapeState) (an : AnimState) (cell : Cell)
    (time : ℝ) : ℝ :=
  let dist := cell.dist.toVal
  let rotation := getShapeRotation sh dist sh.rotation time
  if an.enabled && an.playing && an.animateRotation then
    rotation + time * 360 * an.speed
  else rotation

end

/-- The names bound at module scope in grid.js: the import list of line 5
and 6 of grid.js plus the top-level declarations of the module itself.  The
identifier animation is not among them. -/
def gridJsTopLevelNames : List String :=
  ["grid", "shape", "canvas", "calculateScale", "calculateRotation",
   "palette", "pattern", "mask", "createNoise2D", "createNoise3D",
   "noise2D", "noise3D", "getGridCenter", "getNormalizedDistance",
   "getGridCells", "applySymmetry", "getShapeSize", "getShapeRotation",
   "getNoiseValue", "getFillColor", "getStrokeColor", "interpolateColor",
   "getMaskValue", "updateCanvasSize", "getAnimationTime"]

/-- JavaScript truncation toward zero, as used by the % operator. -/
noncomputable def jsTrunc (x : ℝ) : ℤ := if 0 ≤ x then ⌊x⌋ else ⌈x⌉

/-- JavaScript remainder a % b for finite numbers (sign of the dividend). -/
noncomputable def jsMod (a b : ℝ) : ℝ := a - b * (jsTrunc (a / b) : ℝ)

/-- grid.js getAnimationTime: the body first reads animation.enabled, but
grid.js binds no identifier named animation at module scope
(gridJsTopLevelNames), so evaluation resolves the name before anything else
and every call raises a ReferenceError.  Were the name bound, the function
would return 0 when disabled and (frameCount % loopDuration) / loopDuration
otherwise. -/
noncomputable def getAnimationTime (an : AnimState) (frameCount : ℝ) :
    Except String ℝ :=
  if (gridJsTopLevelNames.contains "animation") = true then
    if !an.enabled then Except.ok 0
    else Except.ok (jsMod frameCount an.loopDuration / an.loopDuration)
  else Except.error "ReferenceError: animation is not defined"

/-- Digit value of a hexadecimal character as understood by JavaScript
parseInt with radix 16 (0-9, a-f and A-F); 0 on other characters, which is
only consulted behind the isHexDigit guard. -/
def hexCharVal (c : Char) : ℕ :=
  if 48 ≤ c.toNat ∧ c.toNat ≤ 57 then c.toNat - 48
  else if 97 ≤ c.toNat ∧ c.toNat ≤ 102 then c.toNat - 87
  else if 65 ≤ c.toNat ∧ c.toNat ≤ 70 then c.toNat - 55
  else 0

/-- Whether a character is a hexadecimal digit for parseInt radix 16. -/
def isHexDigit (c : Char) : Bool :=
  (48 ≤ c.toNat && c.toNat ≤ 57) || (97 ≤ c.toNat && c.toNat ≤ 102) ||
    (65 ≤ c.toNat && c.toNat ≤ 70)

/-- JavaScript parseInt(s, 16) on a slice of at most two characters: parses
the maximal hexadecimal prefix, none (NaN) when the first character is not a
hex digit. -/
def parseInt16 : List Char → Option ℕ
  | [] => none
  | [c] => if isHexDigit c then some (hexCharVal c) else none
  | c1 :: c2 :: _ =>
    if isHexDigit c1 then
      if isHexDigit c2 then some (16 * hexCharVal c1 + hexCharVal c2)
      else some (hexCharVal c1)
    else none

/-- The character JavaScript Number.toString(16) uses for one digit
(lowercase letters above 9). -/
def hexDigitChar (n : ℕ) : Char :=
  if n < 10 then Char.ofNat (48 + n) else Char.ofNat (87 + n)

/-- The sixteen lowercase hexadecimal digit characters, in value order. -/
def lowerHexDigits : List Char :=
  (List.range 16).map hexDigitChar

/-- A well-formed lowercase hex color string: a hash sign followed by
exactly six lowercase hexadecimal digits. -/
def isLowerHexColor (c : List Char) : Bool :=
  match c with
  | '#' :: rest => rest.length = 6 && rest.all (fun ch => lowerHexDigits.contains ch)
  | _ => false

/-- Fueled base-16 digit accumulator behind natToHex; the fuel is always at
least the number of digits at the call sites. -/
def natToHexAux : ℕ → ℕ → List Char → List Char
  | 0, _, acc => acc
  | fuel + 1, n, acc =>
    if n = 0 then acc else natToHexAux fuel (n / 16) (hexDigitChar (n % 16) :: acc)

/-- JavaScript Number.toString(16) for a natural number. -/
def natToHex (n : ℕ) : List Char :=
  if n = 0 then ['0'] else natToHexAux n n []

/-- JavaScript String.padStart(2, zero). -/
def padStart2 (l : List Char) : List Char :=
  List.replicate (2 - l.length) '0' ++ l

/-- JavaScript i.toString(16).padStart(2, zero) for an integer channel
value. -/
def jsIntToHexPad2 (i : ℤ) : List Char :=
  padStart2 (if i < 0 then '-' :: natToHex i.natAbs else natToHex i.toNat)

/-- JavaScript Math.round on a finite number: floor of x + 1/2. -/
def jsRound (q : ℚ) : ℤ := ⌊q + 1 / 2⌋

/-- One interpolated channel of interpolateColor: round the blend of the two
parsed channel values and render it as two hex digits; a failed parse (NaN)
propagates through the arithmetic and renders as the three characters NaN,
exactly as NaN.toString(16).padStart(2, zero) does. -/
def interpChannel (o1 o2 : Option ℕ) (t : ℚ) : List Char :=
  match o1, o2 with
  | some a, some b => jsIntToHexPad2 (jsRound ((a : ℚ) + ((b : ℚ) - (a : ℚ)) * t))
  | _, _ => ['N', 'a', 'N']

/-- grid.js interpolateColor: parse the two hash-prefixed hex colors by
slicing character pairs, blend each channel linearly with rounding, and
reassemble a hash-prefixed lowercase hex string. -/
def interpolateColor (c1 c2 : List Char) (t : ℚ) : List Char :=
  let r1 := parseInt16 ((c1.drop 1).take 2)
  let g1 := parseInt16 ((c1.drop 3).take 2)
  let b1 := parseInt16 ((c1.drop 5).take 2)
  let r2 := parseInt16 ((c2.drop 1).take 2)
  let g2 := parseInt16 ((c2.drop 3).take 2)
  let b2 := parseInt16 ((c2.drop 5).take 2)
  '#' :: (interpChannel r1 r2 t ++ interpChannel g1 g2 t ++ interpChannel b1 b2 t)

/-- JavaScript array indexing with an integer index that may be negative
(undefined, modelled by the empty list, outside the bounds). -/
def jsIdx (l : List (List Char)) (i : ℤ) : List Char :=
  if i < 0 then [] else l.getD i.toNat []

/-- grid.js getFillColor: dispatch on shape.fillMode with the default arm
of the source returning the configured fill color.  The distance branch walks
the palette as a piecewise-linear gradient; palette and random branches
index the palette modulo its length. -/
def getFillColor (sh : ShapeState) (colors : List (List Char)) (dist : ℚ)
    (index : ℕ) (time : ℚ) : List Char :=
  if sh.fillMode = "solid" then sh.fillColor
  else if sh.fillMode = "distance" then
    let t := dist * ((colors.length : ℚ) - 1)
    let i := ⌊t⌋
    let frac := t - (i : ℚ)
    if (colors.length : ℤ) - 1 ≤ i then colors.getD (colors.length - 1) []
    else interpolateColor (jsIdx colors i) (jsIdx colors (i + 1)) frac
  else if sh.fillMode = "palette" then colors.getD (index % colors.length) []
  else if sh.fillMode = "random" then colors.getD ((index * 7) % colors.length) []
  else sh.fillColor

/-- grid.js getStrokeColor: none gives no stroke, solid the configured
stroke color, anything else delegates to getFillColor with time 0. -/
def getStrokeColor (sh : ShapeState) (colors : List (List Char)) (dist : ℚ)
    (index : ℕ) : Option (List Char) :=
  if sh.strokeMode = "none" then none
  else if sh.strokeMode = "solid" then some sh.strokeColor
  else some (getFillColor sh colors dist index 0)

/-- A JSON-representable JavaScript value, as handled by the preset system:
null, booleans, finite numbers, strings, arrays and objects whose fields
keep insertion order. -/
inductive JValue where
  | null : JValue
  | bool (b : Bool) : JValue
  | num (q : ℚ) : JValue
  | str (s : String) : JValue
  | arr (elems : List JValue) : JValue
  | obj (fields : List (String × JValue)) : JValue

/-- Property read target[k] on a JValue: first field with the key, none
(undefined) when absent or when the value is not an object. -/
def objGet : JValue → String → Option JValue
  | JValue.obj fs, k => List.lookup k fs
  | _, _ => none

/-- Assign one field of an object field list: an existing key is updated in
place keeping its position, a new key is appended, as JavaScript property
assignment does. -/
def setField : List (String × JValue) → String → JValue → List (String × JValue)
  | [], k, v => [(k, v)]
  | (k0, v0) :: rest, k, v =>
    if k0 = k then (k0, v) :: rest else (k0, v0) :: setField rest k v

/-- Property write target[k] = v; a non-object target is left unchanged
(the merge in presets.js only ever writes into objects). -/
def setKey : JValue → String → JValue → JValue
  | JValue.obj fs, k, v => JValue.obj (setField fs k v)
  | t, _, _ => t

/-- Whether a JValue is a plain object (typeof object, not null, not an
array). -/
def isObjJ : JValue → Bool
  | JValue.obj _ => true
  | _ => false

/-- JavaScript truthiness of a JValue. -/
def truthy : JValue → Bool
  | JValue.null => false
  | JValue.bool b => b
  | JValue.num q => decide (q ≠ 0)
  | JValue.str s => decide (s ≠ "")
  | JValue.arr _ => true
  | JValue.obj _ => true

/-- The key loop of state.js applyState over the fields of the source: a plain
object source value whose target field is also a plain object is merged
recursively, anything else is assigned. -/
def applyFields : JValue → List (String × JValue) → JValue
  | t, [] => t
  | t, (k, v) :: rest =>
    let tv :=
      match v, objGet t k with
      | JValue.obj vf, some (JValue.obj tf) => setKey t k (applyFields (JValue.obj tf) vf)
      | _, _ => setKey t k v
    applyFields tv rest

/-- state.js applyState: deep merge of a source object onto a target. -/
def applyState (t s : JValue) : JValue :=
  match s with
  | JValue.obj fs => applyFields t fs
  | _ => t

/-- state.js cloneState is JSON.parse of JSON.stringify, which is the
identity on the JSON-representable trees modelled by JValue. -/
def cloneState (v : JValue) : JValue := v

/-- The mutable module state read and written by the preset system:
the grid, shape, pattern and animation objects, the palette color array and
the canvas object. -/
structure AppState where
  grid : JValue
  shape : JValue
  pattern : JValue
  animation : JValue
  paletteColors : List JValue
  canvas : JValue

/-- presets.js exportCurrentState: the persisted preset document built from
clones of the four state sections, the palette color array and the canvas
background (a canvas object without a background property would serialize
to an empty canvas object). -/
def exportCurrentState (st : AppState) : JValue :=
  JValue.obj
    [("grid", cloneState st.grid),
     ("shape", cloneState st.shape),
     ("pattern", cloneState st.pattern),
     ("animation", cloneState st.animation),
     ("palette", JValue.obj [("colors", JValue.arr st.paletteColors)]),
     ("canvas", JValue.obj
        (match objGet st.canvas "background" with
         | some v => [("background", v)]
         | none => []))]

/-- presets.js applyPreset: merge each present and truthy section of the
preset document onto the corresponding state section; the palette colors
array, when present, replaces the current colors with a copy. -/
def applyPreset (st : AppState) (data : JValue) : AppState :=
  let g := match objGet data "grid" with
    | some v => if truthy v then applyState st.grid v else st.grid
    | none => st.grid
  let sh := match objGet data "shape" with
    | some v => if truthy v then applyState st.shape v else st.shape
    | none => st.shape
  let pat := match objGet data "pattern" with
    | some v => if truthy v then applyState st.pattern v else st.pattern
    | none => st.pattern
  let an := match objGet data "animation" with
    | some v => if truthy v then applyState st.animation v else st.animation
    | none => st.animation
  let colors := match objGet data "palette" with
    | some pv =>
      if truthy pv then
        match objGet pv "colors" with
        | some (JValue.arr l) => if truthy (JValue.arr l) then l else st.paletteColors
        | _ => st.paletteColors
      else st.paletteColors
    | none => st.paletteColors
  let cv := match objGet data "canvas" with
    | some v => if truthy v then applyState st.canvas v else st.canvas
    | none => st.canvas
  ⟨g, sh, pat, an, colors, cv⟩

/-- presets.js importState on an already-parsed preset document (JSON.parse
of JSON.stringify is the identity on JValue trees): applyPreset onto the
current state. -/
def importState (data : JValue) (st : AppState) : AppState :=
  applyPreset st data

/-- A state section in the shape state.js actually gives it: a plain object
with pairwise distinct keys whose values are all scalars (no nested
objects). -/
def flatScalarObj (v : JValue) : Bool :=
  match v with
  | JValue.obj fs =>
    decide (fs.map Prod.fst).Nodup && fs.all (fun p => !isObjJ p.2)
  | _ => false

/-! Concrete sample states, mirroring the defaults of state.js; used by the
witness theorems. -/

/-- The default grid of state.js. -/
noncomputable def defaultGrid : GridState :=
  ⟨12, 12, 60, 0, 0, "none", 6⟩

/-- The default shape of state.js. -/
noncomputable def defaultShape : ShapeState :=
  ⟨"circle", 0.8, 0, false, 0.5, "linear", 0.2, 1.0, 1.0,
   "none", 0, 360, "solid", "#4a9eff".data, 1.0,
   "none", "#ffffff".data, 1, 1.0, "blend"⟩

/-- The default pattern settings of state.js. -/
noncomputable def defaultPattern : PatternState := ⟨false, 1, 0.1, 0.5⟩

/-- The default animation settings of state.js. -/
noncomputable def defaultAnim : AnimState :=
  ⟨false, false, 1.0, 120, true, false, false⟩

/-- The default palette of state.js. -/
def defaultPalette : List (List Char) :=
  ["#4a9eff".data, "#ff6b6b".data, "#4ecdc4".data, "#ffe66d".data,
   "#a8e6cf".data]

/-- A constant noise sampler satisfying the noise contract; stands in for
the simplex sampler in witnesses. -/
def zeroNoise : ℝ → ℝ → ℝ := fun _ _ => 0

/-- The default grid section of state.js as a JSON object. -/
def defaultGridJ : JValue :=
  JValue.obj
    [("cols", JValue.num 12), ("rows", JValue.num 12),
     ("cellSize", JValue.num 60), ("offsetX", JValue.num 0),
     ("offsetY", JValue.num 0), ("symmetry", JValue.str "none"),
     ("symmetryCount", JValue.num 6)]

/-- The default shape section of state.js as a JSON object. -/
def defaultShapeJ : JValue :=
  JValue.obj
    [("type", JValue.str "circle"), ("size", JValue.num (4/5)),
     ("rotation", JValue.num 0), ("rotationAuto", JValue.bool false),
     ("rotationSpeed", JValue.num (1/2)), ("scaleMode", JValue.str "linear"),
     ("scaleMin", JValue.num (1/5)), ("scaleMax", JValue.num 1),
     ("scalePower", JValue.num 1), ("rotateMode", JValue.str "none"),
     ("rotateMin", JValue.num 0), ("rotateMax", JValue.num 360),
     ("fillMode", JValue.str "solid"), ("fillColor", JValue.str "#4a9eff"),
     ("fillOpacity", JValue.num 1), ("strokeMode", JValue.str "none"),
     ("strokeColor", JValue.str "#ffffff"), ("strokeWeight", JValue.num 1),
     ("strokeOpacity", JValue.num 1), ("blendMode", JValue.str "blend")]

/-- The default pattern section of state.js as a JSON object. -/
def defaultPatternJ : JValue :=
  JValue.obj
    [("enabled", JValue.bool false), ("seed", JValue.num 1),
     ("noiseScale", JValue.num (1/10)), ("noiseIntensity", JValue.num (1/2)),
     ("noiseOctaves", JValue.num 1), ("seedRandom", JValue.bool true)]

/-- The default animation section of state.js as a JSON object. -/
def defaultAnimationJ : JValue :=
  JValue.obj
    [("enabled", JValue.bool false), ("speed", JValue.num 1),
     ("loopDuration", JValue.num 120), ("currentFrame", JValue.num 0),
     ("playing", JValue.bool false), ("record", JValue.bool false),
     ("animateSize", JValue.bool true), ("animateRotation", JValue.bool false),
     ("animateColor", JValue.bool false), ("animatePosition", JValue.bool false),
     ("sizeRange", JValue.num (3/10)), ("rotationRange", JValue.num 180),
     ("colorShift", JValue.num (1/10)), ("positionRange", JValue.num 10)]

/-- The default canvas section of state.js as a JSON object. -/
def defaultCanvasJ : JValue :=
  JValue.obj
    [("width", JValue.num 800), ("height", JValue.num 800),
     ("scale", JValue.num (19/20)), ("ratio", JValue.str "1:1"),
     ("background", JValue.str "#111111"), ("showGrid", JValue.bool false),
     ("gridColor", JValue.str "#333333")]

/-- The default palette colors of state.js as JSON values. -/
def defaultColorsJ : List JValue :=
  [JValue.str "#4a9eff", JValue.str "#ff6b6b", JValue.str "#4ecdc4",
   JValue.str "#ffe66d", JValue.str "#a8e6cf"]

/-- The full default application state as JSON sections. -/
def defaultAppState : AppState :=
  ⟨defaultGridJ, defaultShapeJ, defaultPatternJ, defaultAnimationJ,
   defaultColorsJ, defaultCanvasJ⟩

/-- A small two-by-two grid with radial count 3, parametrized by the
symmetry mode; used by witnesses. -/
noncomputable def wGrid (s : String) : GridState := ⟨2, 2, 10, 0, 0, s, 3⟩

/-! Theorems. -/

/-- Helper: the length of a flatMap whose pieces all have length k. -/
theorem length_flatMap_const {α β : Type} (l : List α) (f : α → List β) (k : ℕ)
    (h : ∀ a ∈ l, (f a).length = k) : (l.flatMap f).length = l.length * k := by
  induction l with
  | nil => simp
  | cons a t ih =>
    simp only [List.flatMap_cons, List.length_append, List.length_cons]
    rw [h a (by simp), ih (fun b hb => h b (by simp [hb]))]
    ring

/-- Helper: the cell count of the enumerator is rows times cols times the
constant per-base-cell instance count. -/
theorem getGridCells_length_of_const (g : GridState) (k : ℕ)
    (h : ∀ x y col row dist,
      (applySymmetry g x y col row dist (getGridCenter g)).length = k) :
    (getGridCells g).length = g.cols * g.rows * k := by
  unfold getGridCells
  rw [length_flatMap_const _ _ (g.cols * k) (fun row _ => by
      rw [length_flatMap_const _ _ k (fun col _ => h _ _ _ _ _), List.length_range]),
    List.length_range]
  ring

/-- Helper: every symmetry mode emits the original instance first. -/
theorem applySymmetry_head (g : GridState) (x y : ℝ) (col row : ℤ)
    (dist : JSNum) (center : ℝ × ℝ) :
    (applySymmetry g x y col row dist center).head? =
      some ⟨x, y, col, row, dist, true, none⟩ := by
  unfold applySymmetry
  split_ifs <;> rfl

/-- C4: instance counts per symmetry mode (1, 2, 2, 4, radial count) both
for a single expanded base cell and for the full enumerated grid, the
original instance always emitted first, and the both mode emitting exactly
original, horizontal, vertical and horizontal+vertical in that order. -/
theorem C4_symmetry_counts_and_order (g : GridState) (x y : ℝ) (col row : ℤ)
    (dist : JSNum) (center : ℝ × ℝ)
    (hcols : 1 ≤ g.cols) (hrows : 1 ≤ g.rows) (hcount : 1 ≤ g.symmetryCount) :
    (applySymmetry { g with symmetry := "none" } x y col row dist center).length = 1 ∧
    (applySymmetry { g with symmetry := "horizontal" } x y col row dist center).length = 2 ∧
    (applySymmetry { g with symmetry := "vertical" } x y col row dist center).length = 2 ∧
    (applySymmetry { g with symmetry := "both" } x y col row dist center).length = 4 ∧
    (applySymmetry { g with symmetry := "radial" } x y col row dist center).length =
      g.symmetryCount ∧
    (getGridCells { g with symmetry := "none" }).length = g.cols * g.rows * 1 ∧
    (getGridCells { g with symmetry := "horizontal" }).length = g.cols * g.rows * 2 ∧
    (getGridCells { g with symmetry := "vertical" }).length = g.cols * g.rows * 2 ∧
    (getGridCells { g with symmetry := "both" }).length = g.cols * g.rows * 4 ∧
    (getGridCells { g with symmetry := "radial" }).length =
      g.cols * g.rows * g.symmetryCount ∧
    (applySymmetry g x y col row dist center).head? =
      some ⟨x, y, col, row, dist, true, none⟩ ∧
    applySymmetry { g with symmetry := "both" } x y col row dist center =
      [⟨x, y, col, row, dist, true, none⟩,
       ⟨center.1 * 2 - x, y, (g.cols : ℤ) - 1 - col, row, dist, false, none⟩,
       ⟨x, center.2 * 2 - y, col, (g.rows : ℤ) - 1 - row, dist, false, none⟩,
       ⟨center.1 * 2 - x, center.2 * 2 - y, (g.cols : ℤ) - 1 - col,
        (g.rows : ℤ) - 1 - row, dist, false, none⟩] := by
  have hradial : ∀ x2 y2 : ℝ, ∀ col2 row2 : ℤ, ∀ dist2 : JSNum, ∀ center2 : ℝ × ℝ,
      (applySymmetry { g with symmetry := "radial" } x2 y2 col2 row2 dist2 center2).length =
        g.symmetryCount := by
    intro x2 y2 col2 row2 dist2 center2
    simp [applySymmetry]
    omega
  refine ⟨by simp [applySymmetry], by simp [applySymmetry], by simp [applySymmetry],
    by simp [applySymmetry], hradial x y col row dist center,
    ?_, ?_, ?_, ?_, ?_, applySymmetry_head g x y col row dist center,
    by simp [applySymmetry]⟩
  · rw [getGridCells_length_of_const _ 1 (fun _ _ _ _ _ => by simp [applySymmetry])]
  · rw [getGridCells_length_of_const _ 2 (fun _ _ _ _ _ => by simp [applySymmetry])]
  · rw [getGridCells_length_of_const _ 2 (fun _ _ _ _ _ => by simp [applySymmetry])]
  · rw [getGridCells_length_of_const _ 4 (fun _ _ _ _ _ => by simp [applySymmetry])]
  · rw [getGridCells_length_of_const _ g.symmetryCount
      (fun _ _ _ _ _ => hradial _ _ _ _ _ _)]

/-- Witness for C4 on a two-by-two grid with radial count 3, the base cell
at (5, 5) and center (10, 10). -/
theorem C4_symmetry_counts_and_order_witness :
    1 ≤ (wGrid "radial").cols ∧ 1 ≤ (wGrid "radial").rows ∧
    1 ≤ (wGrid "radial").symmetryCount ∧
    ((applySymmetry (wGrid "none") 5 5 0 0 (JSNum.val (1/2)) (10, 10)).length = 1 ∧
     (applySymmetry (wGrid "horizontal") 5 5 0 0 (JSNum.val (1/2)) (10, 10)).length = 2 ∧
     (applySymmetry (wGrid "vertical") 5 5 0 0 (JSNum.val (1/2)) (10, 10)).length = 2 ∧
     (applySymmetry (wGrid "both") 5 5 0 0 (JSNum.val (1/2)) (10, 10)).length = 4 ∧
     (applySymmetry (wGrid "radial") 5 5 0 0 (JSNum.val (1/2)) (10, 10)).length =
       (wGrid "radial").symmetryCount ∧
     (getGridCells (wGrid "none")).length = 2 * 2 * 1 ∧
     (getGridCells (wGrid "horizontal")).length = 2 * 2 * 2 ∧
     (getGridCells (wGrid "vertical")).length = 2 * 2 * 2 ∧
     (getGridCells (wGrid "both")).length = 2 * 2 * 4 ∧
     (getGridCells (wGrid "radial")).length = 2 * 2 * 3 ∧
     (applySymmetry (wGrid "radial") 5 5 0 0 (JSNum.val (1/2)) (10, 10)).head? =
       some ⟨5, 5, 0, 0, JSNum.val (1/2), true, none⟩ ∧
     applySymmetry (wGrid "both") 5 5 0 0 (JSNum.val (1/2)) (10, 10) =
       [⟨5, 5, 0, 0, JSNum.val (1/2), true, none⟩,
        ⟨(10:ℝ) * 2 - 5, 5, (2:ℤ) - 1 - 0, 0, JSNum.val (1/2), false, none⟩,
        ⟨5, (10:ℝ) * 2 - 5, 0, (2:ℤ) - 1 - 0, JSNum.val (1/2), false, none⟩,
        ⟨(10:ℝ) * 2 - 5, (10:ℝ) * 2 - 5, (2:ℤ) - 1 - 0, (2:ℤ) - 1 - 0,
         JSNum.val (1/2), false, none⟩]) :=
  ⟨by decide, by decide, by decide,
   C4_symmetry_counts_and_order (wGrid "radial") 5 5 0 0 (JSNum.val (1/2))
     (10, 10) (by decide) (by decide) (by decide)⟩

/-- C1: the symmetry expander does tag radial copy i with the extra
rotation i times 360 over the radial count (first conjunct), but the
drawing call site computes its rotation from the cell distance alone:
it is invariant under any change of the rotation tag of the cell and equals
the output of the rotation mapper plus only the animation term — the tagged extra
rotation is never added (second and third conjuncts). -/
theorem C1_radial_tag_ignored_at_call_site
    (g : GridState) (x y : ℝ) (col row : ℤ) (dist : JSNum) (center : ℝ × ℝ)
    (hmode : g.symmetry = "radial")
    (sh : ShapeState) (an : AnimState) (cell : Cell) (time : ℝ) (tag : Option ℝ) :
    (applySymmetry g x y col row dist center).map Cell.rotation =
      none :: (List.range (g.symmetryCount - 1)).map
        (fun (j : ℕ) => some (360 * ((j : ℝ) + 1) / (g.symmetryCount : ℝ))) ∧
    drawCellRotation sh an { cell with rotation := tag } time =
      drawCellRotation sh an cell time ∧
    drawCellRotation sh an cell time =
      (if an.enabled && an.playing && an.animateRotation then
        getShapeRotation sh cell.dist.toVal sh.rotation time + time * 360 * an.speed
      else getShapeRotation sh cell.dist.toVal sh.rotation time) := by
  refine ⟨?_, rfl, rfl⟩
  simp [applySymmetry, hmode]

/-- Witness for C1: radial count 3 tags the two copies with 120 and 240
degrees, and the call-site rotation of a cell ignores its tag. -/
theorem C1_radial_tag_ignored_at_call_site_witness :
    (wGrid "radial").symmetry = "radial" ∧
    ((applySymmetry (wGrid "radial") 5 5 0 0 (JSNum.val (1/2)) (10, 10)).map Cell.rotation =
      none :: (List.range ((wGrid "radial").symmetryCount - 1)).map
        (fun (j : ℕ) => some (360 * ((j : ℝ) + 1) / (((wGrid "radial").symmetryCount : ℕ) : ℝ))) ∧
    drawCellRotation defaultShape defaultAnim
        { (⟨5, 5, 0, 0, JSNum.val (1/2), false, some 120⟩ : Cell) with rotation := some 240 } 0 =
      drawCellRotation defaultShape defaultAnim
        ⟨5, 5, 0, 0, JSNum.val (1/2), false, some 120⟩ 0 ∧
    drawCellRotation defaultShape defaultAnim
        ⟨5, 5, 0, 0, JSNum.val (1/2), false, some 120⟩ 0 =
      (if defaultAnim.enabled && defaultAnim.playing && defaultAnim.animateRotation then
        getShapeRotation defaultShape (JSNum.val (1/2)).toVal defaultShape.rotation 0 +
          0 * 360 * defaultAnim.speed
      else getShapeRotation defaultShape (JSNum.val (1/2)).toVal defaultShape.rotation 0)) :=
  ⟨rfl,
   C1_radial_tag_ignored_at_call_site (wGrid "radial") 5 5 0 0 (JSNum.val (1/2))
     (10, 10) rfl defaultShape defaultAnim
     ⟨5, 5, 0, 0, JSNum.val (1/2), false, some 120⟩ 0 (some 240)⟩

/-- Helper: a list of length six is a six-element literal. -/
theorem list_length_eq_six {α : Type} {l : List α} (h : l.length = 6) :
    ∃ a b c d e f, l = [a, b, c, d, e, f] := by
  rcases l with _ | ⟨a, _ | ⟨b, _ | ⟨c, _ | ⟨d, _ | ⟨e, _ | ⟨f, _ | ⟨g, t⟩⟩⟩⟩⟩⟩⟩ <;>
      simp only [List.length_cons, List.length_nil] at h <;>
    first
      | exact ⟨a, b, c, d, e, f, rfl⟩
      | omega

/-- Helper: lowercase hex digits are hex digits for parseInt. -/
theorem isHexDigit_of_mem_lower : ∀ c ∈ lowerHexDigits, isHexDigit c = true := by
  decide

/-- Helper: serializing 16 a + b back to two hex digits returns the two
lowercase digit characters it was parsed from. -/
theorem hexPair_roundTrip :
    ∀ d1 ∈ lowerHexDigits, ∀ d2 ∈ lowerHexDigits,
      jsIntToHexPad2 (16 * (hexCharVal d1 : ℤ) + (hexCharVal d2 : ℤ)) = [d1, d2] := by
  decide

/-- Helper: Math.round of a natural number is itself. -/
theorem jsRound_natCast (n : ℕ) : jsRound (n : ℚ) = (n : ℤ) := by
  unfold jsRound
  rw [show ((n : ℚ) + 1 / 2) = ((n : ℤ) : ℚ) + 1 / 2 by push_cast; ring,
    Int.floor_int_add]
  norm_num

/-- Helper: parseInt16 on two lowercase hex digits. -/
theorem parseInt16_pair (d1 d2 : Char) (h1 : d1 ∈ lowerHexDigits)
    (h2 : d2 ∈ lowerHexDigits) :
    parseInt16 [d1, d2] = some (16 * hexCharVal d1 + hexCharVal d2) := by
  simp [parseInt16, isHexDigit_of_mem_lower d1 h1, isHexDigit_of_mem_lower d2 h2]

/-- Helper: an interpolated channel at blend factor 0 renders the first
channel value back. -/
theorem interpChannel_zero (a b : ℕ) :
    interpChannel (some a) (some b) 0 = jsIntToHexPad2 (a : ℤ) := by
  show jsIntToHexPad2 (jsRound ((a : ℚ) + ((b : ℚ) - (a : ℚ)) * 0)) =
    jsIntToHexPad2 (a : ℤ)
  rw [show ((a : ℚ) + ((b : ℚ) - (a : ℚ)) * 0) = (a : ℚ) by ring, jsRound_natCast]

/-- Helper: interpolating from a valid lowercase hex color with blend
factor 0 returns the first color bit for bit. -/
theorem interpolateColor_zero (c1 c2 : List Char)
    (h1 : isLowerHexColor c1 = true) (h2 : isLowerHexColor c2 = true) :
    interpolateColor c1 c2 0 = c1 := by
  rcases c1 with _ | ⟨ch1, r1⟩
  · simp [isLowerHexColor] at h1
  rcases c2 with _ | ⟨ch2, r2⟩
  · simp [isLowerHexColor] at h2
  by_cases hc1 : ch1 = '#'
  swap
  · simp [isLowerHexColor, hc1] at h1
  by_cases hc2 : ch2 = '#'
  swap
  · simp [isLowerHexColor, hc2] at h2
  subst hc1
  subst hc2
  simp only [isLowerHexColor, Bool.and_eq_true, decide_eq_true_eq,
    List.all_eq_true] at h1 h2
  obtain ⟨hlen1, hall1⟩ := h1
  obtain ⟨hlen2, hall2⟩ := h2
  obtain ⟨a1, a2, a3, a4, a5, a6, rfl⟩ := list_length_eq_six hlen1
  obtain ⟨b1, b2, b3, b4, b5, b6, rfl⟩ := list_length_eq_six hlen2
  have m1 := List.mem_of_elem_eq_true (hall1 a1 (by simp))
  have m2 := List.mem_of_elem_eq_true (hall1 a2 (by simp))
  have m3 := List.mem_of_elem_eq_true (hall1 a3 (by simp))
  have m4 := List.mem_of_elem_eq_true (hall1 a4 (by simp))
  have m5 := List.mem_of_elem_eq_true (hall1 a5 (by simp))
  have m6 := List.mem_of_elem_eq_true (hall1 a6 (by simp))
  have n1 := List.mem_of_elem_eq_true (hall2 b1 (by simp))
  have n2 := List.mem_of_elem_eq_true (hall2 b2 (by simp))
  have n3 := List.mem_of_elem_eq_true (hall2 b3 (by simp))
  have n4 := List.mem_of_elem_eq_true (hall2 b4 (by simp))
  have n5 := List.mem_of_elem_eq_true (hall2 b5 (by simp))
  have n6 := List.mem_of_elem_eq_true (hall2 b6 (by simp))
  unfold interpolateColor
  simp only [List.drop, List.take]
  rw [parseInt16_pair a1 a2 m1 m2, parseInt16_pair a3 a4 m3 m4,
    parseInt16_pair a5 a6 m5 m6, parseInt16_pair b1 b2 n1 n2,
    parseInt16_pair b3 b4 n3 n4, parseInt16_pair b5 b6 n5 n6]
  rw [interpChannel_zero, interpChannel_zero, interpChannel_zero]
  have e1 := hexPair_roundTrip a1 m1 a2 m2
  have e2 := hexPair_roundTrip a3 m3 a4 m4
  have e3 := hexPair_roundTrip a5 m5 a6 m6
  rw [show (16 * (hexCharVal a1 : ℤ) + (hexCharVal a2 : ℤ)) =
      ((16 * hexCharVal a1 + hexCharVal a2 : ℕ) : ℤ) by push_cast; ring] at e1
  rw [show (16 * (hexCharVal a3 : ℤ) + (hexCharVal a4 : ℤ)) =
      ((16 * hexCharVal a3 + hexCharVal a4 : ℕ) : ℤ) by push_cast; ring] at e2
  rw [show (16 * (hexCharVal a5 : ℤ) + (hexCharVal a6 : ℤ)) =
      ((16 * hexCharVal a5 + hexCharVal a6 : ℕ) : ℤ) by push_cast; ring] at e3
  rw [e1, e2, e3]
  simp

/-- Helper: an in-bounds getD is a member of the list. -/
theorem getD_mem_of_lt {α : Type} (l : List α) (n : ℕ) (d : α)
    (h : n < l.length) : l.getD n d ∈ l := by
  rw [List.getD_eq_getElem l d h]
  exact List.getElem_mem h

/-- Helper: the distance branch of getFillColor below the last palette
segment reduces to interpolateColor of the two segment endpoints. -/
theorem getFillColor_distance_interp (sh : ShapeState)
    (colors : List (List Char)) (index : ℕ) (time : ℚ) (d : ℚ)
    (hmode : sh.fillMode = "distance") (h0 : 0 ≤ d) (hN : 2 ≤ colors.length)
    (hlt : ⌊d * ((colors.length : ℚ) - 1)⌋ < (colors.length : ℤ) - 1) :
    getFillColor sh colors d index time =
      interpolateColor (colors.getD (⌊d * ((colors.length : ℚ) - 1)⌋.toNat) [])
        (colors.getD (⌊d * ((colors.length : ℚ) - 1)⌋.toNat + 1) [])
        (d * ((colors.length : ℚ) - 1) - ⌊d * ((colors.length : ℚ) - 1)⌋) := by
  have hge : (0 : ℤ) ≤ ⌊d * ((colors.length : ℚ) - 1)⌋ := by
    apply Int.floor_nonneg.mpr
    have hc : (1 : ℚ) ≤ (colors.length : ℚ) := by
      have : (1 : ℕ) ≤ colors.length := by omega
      exact_mod_cast this
    have : (0 : ℚ) ≤ (colors.length : ℚ) - 1 := by linarith
    positivity
  have htn : (⌊d * ((colors.length : ℚ) - 1)⌋ + 1).toNat =
      ⌊d * ((colors.length : ℚ) - 1)⌋.toNat + 1 := by omega
  unfold getFillColor
  rw [hmode]
  rw [if_neg (by decide : ¬ (("distance" : String) = "solid")),
    if_pos (rfl : ("distance" : String) = "distance")]
  simp only []
  rw [if_neg (not_le.mpr hlt)]
  unfold jsIdx
  rw [if_neg (not_lt.mpr hge), if_neg (by omega : ¬ (⌊d * ((colors.length : ℚ) - 1)⌋ + 1 < 0)),
    htn]

/-- C6 counterexample: on the palette with uppercase first color #FF0000
the distance gradient at dist 0 re-serializes the color to lowercase
#ff0000, which is not bit-for-bit the palette entry. -/
theorem C6_uppercase_palette_counterexample :
    getFillColor { defaultShape with fillMode := "distance" }
        ["#FF0000".data, "#00ff00".data] 0 0 0 ≠
      ["#FF0000".data, "#00ff00".data].getD 0 [] := by
  have h := getFillColor_distance_interp { defaultShape with fillMode := "distance" }
    ["#FF0000".data, "#00ff00".data] 0 0 0 rfl le_rfl (by norm_num)
    (by norm_num)
  rw [h]
  rw [show (0 : ℚ) * ((([("#FF0000".data : List Char), "#00ff00".data].length : ℚ)) - 1) -
      (⌊(0 : ℚ) * ((([("#FF0000".data : List Char), "#00ff00".data].length : ℚ)) - 1)⌋ : ℚ) = 0 by
    norm_num]
  rw [show (⌊(0 : ℚ) * ((([("#FF0000".data : List Char), "#00ff00".data].length : ℚ)) - 1)⌋).toNat = 0 by
    norm_num]
  have hinterp : interpolateColor "#FF0000".data "#00ff00".data 0 =
      ['#', 'f', 'f', '0', '0', '0', '0'] := by
    unfold interpolateColor
    rw [show parseInt16 (("#FF0000".data.drop 1).take 2) = some 255 from rfl,
      show parseInt16 (("#FF0000".data.drop 3).take 2) = some 0 from rfl,
      show parseInt16 (("#FF0000".data.drop 5).take 2) = some 0 from rfl,
      show parseInt16 (("#00ff00".data.drop 1).take 2) = some 0 from rfl,
      show parseInt16 (("#00ff00".data.drop 3).take 2) = some 255 from rfl,
      show parseInt16 (("#00ff00".data.drop 5).take 2) = some 0 from rfl]
    show '#' :: (interpChannel (some 255) (some 0) 0 ++
        interpChannel (some 0) (some 255) 0 ++ interpChannel (some 0) (some 0) 0) =
      ['#', 'f', 'f', '0', '0', '0', '0']
    rw [interpChannel_zero 255 0, interpChannel_zero 0 255, interpChannel_zero 0 0]
    rfl
  rw [show ([("#FF0000".data : List Char), "#00ff00".data].getD 0 []) = "#FF0000".data
      from rfl,
    show ([("#FF0000".data : List Char), "#00ff00".data].getD 1 []) = "#00ff00".data
      from rfl,
    hinterp]
  decide

/-- C6 amended: for palettes of lowercase #rrggbb colors the distance
gradient returns colors[0] bit for bit at dist 0, colors[N-1] bit for bit
at dist 1, and interpolates per channel with rounding between the two
segment endpoint colors at intermediate distances. -/
theorem C6_distanceGradient_amended (sh : ShapeState)
    (colors : List (List Char)) (index : ℕ) (time : ℚ) (dist : ℚ)
    (hmode : sh.fillMode = "distance") (hN : 2 ≤ colors.length)
    (hvalid : ∀ c ∈ colors, isLowerHexColor c = true)
    (hd0 : 0 ≤ dist)
    (hdi : ⌊dist * ((colors.length : ℚ) - 1)⌋ < (colors.length : ℤ) - 1) :
    getFillColor sh colors 0 index time = colors.getD 0 [] ∧
    getFillColor sh colors 1 index time = colors.getD (colors.length - 1) [] ∧
    getFillColor sh colors dist index time =
      interpolateColor (colors.getD (⌊dist * ((colors.length : ℚ) - 1)⌋.toNat) [])
        (colors.getD (⌊dist * ((colors.length : ℚ) - 1)⌋.toNat + 1) [])
        (dist * ((colors.length : ℚ) - 1) - ⌊dist * ((colors.length : ℚ) - 1)⌋) := by
  have hNZ : (2 : ℤ) ≤ (colors.length : ℤ) := by exact_mod_cast hN
  refine ⟨?_, ?_, getFillColor_distance_interp sh colors index time dist hmode hd0 hN hdi⟩
  · rw [getFillColor_distance_interp sh colors index time 0 hmode le_rfl hN
      (by rw [zero_mul, Int.floor_zero]; omega)]
    rw [zero_mul, Int.floor_zero, Int.toNat_zero]
    rw [show ((0 : ℚ) - ((0 : ℤ) : ℚ)) = 0 by norm_num]
    exact interpolateColor_zero _ _
      (hvalid _ (getD_mem_of_lt colors 0 [] (by omega)))
      (hvalid _ (getD_mem_of_lt colors 1 [] (by omega)))
  · unfold getFillColor
    rw [hmode]
    rw [if_neg (by decide : ¬ (("distance" : String) = "solid")),
      if_pos (rfl : ("distance" : String) = "distance")]
    simp only []
    rw [if_pos]
    rw [one_mul, show ((colors.length : ℚ) - 1) = (((colors.length : ℤ) - 1 : ℤ) : ℚ) by
      push_cast; ring, Int.floor_intCast]

/-- Helper: in a field list with pairwise distinct keys, lookup of a
key of a member returns the value of that member. -/
theorem lookup_eq_of_mem_of_nodup (fs : List (String × JValue))
    (hnd : (fs.map Prod.fst).Nodup) :
    ∀ kv ∈ fs, List.lookup kv.1 fs = some kv.2 := by
  induction fs with
  | nil => intro kv h; simp at h
  | cons hd t ih =>
    obtain ⟨k0, v0⟩ := hd
    simp only [List.map_cons, List.nodup_cons] at hnd
    obtain ⟨hk0, hndt⟩ := hnd
    intro kv hkv
    rcases List.mem_cons.mp hkv with h | h
    · subst h
      simp [List.lookup]
    · have hne : kv.1 ≠ k0 := by
        intro he
        exact hk0 (he ▸ List.mem_map.mpr ⟨kv, h, rfl⟩)
      have hbeq : (kv.1 == k0) = false := beq_eq_false_iff_ne.mpr hne
      simp only [List.lookup, hbeq]
      exact ih hndt kv h

/-- Helper: a lookup hit is a member of the field list. -/
theorem mem_of_lookup_eq_some (fs : List (String × JValue)) (k : String)
    (v : JValue) (h : List.lookup k fs = some v) : (k, v) ∈ fs := by
  induction fs with
  | nil => simp [List.lookup] at h
  | cons hd t ih =>
    obtain ⟨k0, v0⟩ := hd
    by_cases he : k = k0
    · subst he
      simp [List.lookup] at h
      simp [h]
    · have hbeq : (k == k0) = false := beq_eq_false_iff_ne.mpr he
      simp only [List.lookup, hbeq] at h
      exact List.mem_cons_of_mem _ (ih h)

/-- Helper: assigning the value a key already holds leaves the field list
unchanged. -/
theorem setField_eq_of_lookup (fs : List (String × JValue)) (k : String)
    (v : JValue) (h : List.lookup k fs = some v) : setField fs k v = fs := by
  induction fs with
  | nil => simp [List.lookup] at h
  | cons hd t ih =>
    obtain ⟨k0, v0⟩ := hd
    by_cases he : k0 = k
    · subst he
      simp [List.lookup] at h
      simp [setField, h]
    · have hbeq : (k == k0) = false :=
        beq_eq_false_iff_ne.mpr (fun hh => he hh.symm)
      simp only [List.lookup, hbeq] at h
      simp [setField, he, ih h]

/-- Helper: replaying fields that a flat object already holds, in any
order, leaves the object unchanged. -/
theorem applyFields_self (fs : List (String × JValue)) :
    ∀ src, (∀ kv ∈ src, List.lookup kv.1 fs = some kv.2 ∧ isObjJ kv.2 = false) →
      applyFields (JValue.obj fs) src = JValue.obj fs := by
  intro src
  induction src with
  | nil => intro _; simp [applyFields]
  | cons kv t ih =>
    intro h
    obtain ⟨hl, hobj⟩ := h kv (by simp)
    obtain ⟨k, v⟩ := kv
    have hset : setKey (JValue.obj fs) k v = JValue.obj fs := by
      simp [setKey, setField_eq_of_lookup fs k v hl]
    have hstep : applyFields (JValue.obj fs) ((k, v) :: t) =
        applyFields (setKey (JValue.obj fs) k v) t := by
      cases v <;> simp_all [applyFields, isObjJ]
    rw [hstep, hset]
    exact ih (fun kv2 h2 => h kv2 (List.mem_cons_of_mem _ h2))

/-- Helper: a flat scalar object is truthy. -/
theorem truthy_of_flatScalarObj (v : JValue) (h : flatScalarObj v = true) :
    truthy v = true := by
  cases v <;> simp_all [flatScalarObj, truthy]

/-- Helper: deep-merging a clone of a flat scalar object onto itself is the
identity. -/
theorem applyState_self (v : JValue) (h : flatScalarObj v = true) :
    applyState v v = v := by
  cases v
  case null => simp [flatScalarObj] at h
  case bool b => simp [flatScalarObj] at h
  case num q => simp [flatScalarObj] at h
  case str s => simp [flatScalarObj] at h
  case arr l => simp [flatScalarObj] at h
  case obj fs =>
    simp only [flatScalarObj, Bool.and_eq_true, decide_eq_true_eq,
      List.all_eq_true] at h
    obtain ⟨hnd, hall⟩ := h
    refine applyFields_self fs fs (fun kv hkv => ?_)
    refine ⟨lookup_eq_of_mem_of_nodup fs hnd kv hkv, ?_⟩
    have := hall kv hkv
    simpa using this

/-- Helper: re-merging the exported background property onto a flat scalar
canvas object is the identity. -/
theorem applyState_background_self (v : JValue) (h : flatScalarObj v = true) :
    applyState v (JValue.obj
      (match objGet v "background" with
       | some b => [("background", b)]
       | none => [])) = v := by
  cases v
  case null => simp [flatScalarObj] at h
  case bool b => simp [flatScalarObj] at h
  case num q => simp [flatScalarObj] at h
  case str s => simp [flatScalarObj] at h
  case arr l => simp [flatScalarObj] at h
  case obj fs =>
    simp only [flatScalarObj, Bool.and_eq_true, decide_eq_true_eq,
      List.all_eq_true] at h
    obtain ⟨hnd, hall⟩ := h
    rcases hbg : objGet (JValue.obj fs) "background" with _ | b
    · simp [applyState, applyFields]
    · simp only [applyState]
      refine applyFields_self fs [("background", b)] (fun kv hkv => ?_)
      simp only [List.mem_singleton] at hkv
      subst hkv
      simp only [objGet] at hbg
      refine ⟨hbg, ?_⟩
      have := hall ("background", b) (mem_of_lookup_eq_some fs "background" b hbg)
      simpa using this

/-- C8: importing the exported preset document reproduces the state: every
grid, shape, pattern and animation field, the palette colors and the canvas
background survive the round trip bit for bit, for any state whose sections
have the flat scalar shape state.js gives them. -/
theorem C8_export_import_roundTrip (st : AppState)
    (hg : flatScalarObj st.grid = true) (hsh : flatScalarObj st.shape = true)
    (hpat : flatScalarObj st.pattern = true)
    (han : flatScalarObj st.animation = true)
    (hcv : flatScalarObj st.canvas = true) :
    importState (exportCurrentState st) st = st := by
  obtain ⟨g, sh, pat, an, cols, cv⟩ := st
  simp only [AppState.grid, AppState.shape, AppState.pattern, AppState.animation,
    AppState.canvas] at hg hsh hpat han hcv
  have e1 : objGet (exportCurrentState ⟨g, sh, pat, an, cols, cv⟩) "grid" = some g := rfl
  have e2 : objGet (exportCurrentState ⟨g, sh, pat, an, cols, cv⟩) "shape" = some sh := rfl
  have e3 : objGet (exportCurrentState ⟨g, sh, pat, an, cols, cv⟩) "pattern" = some pat := rfl
  have e4 : objGet (exportCurrentState ⟨g, sh, pat, an, cols, cv⟩) "animation" = some an := rfl
  have e5 : objGet (exportCurrentState ⟨g, sh, pat, an, cols, cv⟩) "palette" =
      some (JValue.obj [("colors", JValue.arr cols)]) := rfl
  have e6 : objGet (exportCurrentState ⟨g, sh, pat, an, cols, cv⟩) "canvas" =
      some (JValue.obj
        (match objGet cv "background" with
         | some b => [("background", b)]
         | none => [])) := rfl
  show applyPreset ⟨g, sh, pat, an, cols, cv⟩
      (exportCurrentState ⟨g, sh, pat, an, cols, cv⟩) = ⟨g, sh, pat, an, cols, cv⟩
  unfold applyPreset
  rw [e1, e2, e3, e4, e5, e6]
  simp only [truthy, truthy_of_flatScalarObj g hg, truthy_of_flatScalarObj sh hsh,
    truthy_of_flatScalarObj pat hpat, truthy_of_flatScalarObj an han,
    truthy_of_flatScalarObj cv hcv, if_true]
  rw [applyState_self g hg, applyState_self sh hsh, applyState_self pat hpat,
    applyState_self an han, applyState_background_self cv hcv]
  rw [show objGet (JValue.obj [("colors", JValue.arr cols)]) "colors" =
    some (JValue.arr cols) from rfl]
  simp only [ite_self]

/-- Witness for C8: the default state round-trips unchanged through
export followed by re-import. -/
theorem C8_export_import_roundTrip_witness :
    flatScalarObj defaultAppState.grid = true ∧
    flatScalarObj defaultAppState.shape = true ∧
    flatScalarObj defaultAppState.pattern = true ∧
    flatScalarObj defaultAppState.animation = true ∧
    flatScalarObj defaultAppState.canvas = true ∧
    importState (exportCurrentState defaultAppState) defaultAppState = defaultAppState :=
  ⟨by decide, by decide, by decide, by decide, by decide,
   C8_export_import_roundTrip defaultAppState (by decide) (by decide) (by decide)
     (by decide) (by decide)⟩

/-- Witness for the amended C6 on the lowercase five-color default palette
at distance one half. -/
theorem C6_distanceGradient_amended_witness :
    ({ defaultShape with fillMode := "distance" } : ShapeState).fillMode = "distance" ∧
    2 ≤ defaultPalette.length ∧
    (∀ c ∈ defaultPalette, isLowerHexColor c = true) ∧
    (0 : ℚ) ≤ (1/2 : ℚ) ∧
    ⌊(1/2 : ℚ) * ((defaultPalette.length : ℚ) - 1)⌋ < (defaultPalette.length : ℤ) - 1 ∧
    (getFillColor { defaultShape with fillMode := "distance" } defaultPalette 0 0 0 =
        defaultPalette.getD 0 [] ∧
      getFillColor { defaultShape with fillMode := "distance" } defaultPalette 1 0 0 =
        defaultPalette.getD (defaultPalette.length - 1) [] ∧
      getFillColor { defaultShape with fillMode := "distance" } defaultPalette (1/2) 0 0 =
        interpolateColor
          (defaultPalette.getD (⌊(1/2 : ℚ) * ((defaultPalette.length : ℚ) - 1)⌋.toNat) [])
          (defaultPalette.getD
            (⌊(1/2 : ℚ) * ((defaultPalette.length : ℚ) - 1)⌋.toNat + 1) [])
          ((1/2 : ℚ) * ((defaultPalette.length : ℚ) - 1) -
            ⌊(1/2 : ℚ) * ((defaultPalette.length : ℚ) - 1)⌋)) :=
  ⟨rfl, by decide, by decide, by norm_num, by norm_num [defaultPalette],
   C6_distanceGradient_amended { defaultShape with fillMode := "distance" }
     defaultPalette 0 0 (1/2) rfl (by decide) (by decide) (by norm_num)
     (by norm_num [defaultPalette])⟩

/-- C3: getAnimationTime is supposed to return the normalized loop phase,
but grid.js binds no identifier named animation, so every call resolves the
name to a ReferenceError instead of a time value, whatever the frame count
and whatever the animation settings are. -/
theorem C3_getAnimationTime_always_referenceError
    (an : AnimState) (frameCount : ℝ) :
    getAnimationTime an frameCount =
      Except.error "ReferenceError: animation is not defined" := by
  unfold getAnimationTime
  rw [if_neg (by decide : ¬ ((gridJsTopLevelNames.contains "animation") = true))]

/-- C10: with scaleMode none, calculateScale returns shape.size itself, so
with the pattern disabled getShapeSize is cellSize times shape.size squared
rather than cellSize times shape.size. -/
theorem C10_scaleMode_none_applies_size_twice
    (noise2D : ℝ → ℝ → ℝ) (g : GridState) (sh : ShapeState)
    (pat : PatternState) (dist time : ℝ)
    (hmode : sh.scaleMode = "none") (hpat : pat.enabled = false) :
    calculateScale sh dist = sh.size ∧
    getShapeSize noise2D g sh pat dist time = g.cellSize * sh.size * sh.size := by
  have h1 : calculateScale sh dist = sh.size := by
    simp [calculateScale, hmode]
  refine ⟨h1, ?_⟩
  simp [getShapeSize, hpat, h1]

/-- Witness for C10 at the default state with scaleMode none and distance
one half. -/
theorem C10_scaleMode_none_applies_size_twice_witness :
    ({ defaultShape with scaleMode := "none" } : ShapeState).scaleMode = "none" ∧
    defaultPattern.enabled = false ∧
    (calculateScale { defaultShape with scaleMode := "none" } (1/2) =
        ({ defaultShape with scaleMode := "none" } : ShapeState).size ∧
      getShapeSize zeroNoise defaultGrid { defaultShape with scaleMode := "none" }
          defaultPattern (1/2) 0 =
        defaultGrid.cellSize *
          ({ defaultShape with scaleMode := "none" } : ShapeState).size *
          ({ defaultShape with scaleMode := "none" } : ShapeState).size) :=
  ⟨rfl, rfl,
   C10_scaleMode_none_applies_size_twice zeroNoise defaultGrid
     { defaultShape with scaleMode := "none" } defaultPattern (1/2) 0 rfl rfl⟩

/-- C7: the random fill mode returns colors[(index * 7) mod N] exactly,
independent of distance and time. -/
theorem C7_randomByIndex_formula
    (sh : ShapeState) (colors : List (List Char)) (dist dist2 time time2 : ℚ)
    (index : ℕ) (hmode : sh.fillMode = "random") (hN : 0 < colors.length) :
    getFillColor sh colors dist index time =
      colors.getD ((index * 7) % colors.length) [] ∧
    getFillColor sh colors dist index time =
      getFillColor sh colors dist2 index time2 := by
  constructor <;> simp [getFillColor, hmode]

/-- Witness for C7 on the five-color default palette at index 13: the
returned color is colors[(13 * 7) mod 5] = colors[1], at two different
distances and times. -/
theorem C7_randomByIndex_formula_witness :
    ({ defaultShape with fillMode := "random" } : ShapeState).fillMode = "random" ∧
    0 < defaultPalette.length ∧
    (getFillColor { defaultShape with fillMode := "random" } defaultPalette 0 13 0 =
        defaultPalette.getD ((13 * 7) % defaultPalette.length) [] ∧
      getFillColor { defaultShape with fillMode := "random" } defaultPalette 0 13 0 =
        getFillColor { defaultShape with fillMode := "random" } defaultPalette (1/2) 13 1) :=
  ⟨rfl, by decide,
   C7_randomByIndex_formula { defaultShape with fillMode := "random" }
     defaultPalette 0 (1/2) 0 1 13 rfl (by decide)⟩

/-- C9: an unrecognized scaleMode behaves exactly like linear scaling, an
unrecognized fillMode returns the configured solid fill color, and an
unrecognized symmetry mode emits only the original instance. -/
theorem C9_unknown_modes_fall_back
    (sh : ShapeState) (g : GridState) (colors : List (List Char))
    (distR : ℝ) (dist : ℚ) (index : ℕ) (time : ℚ)
    (x y : ℝ) (col row : ℤ) (cdist : JSNum) (center : ℝ × ℝ)
    (hscale : sh.scaleMode ∉
      ["none", "linear", "easeIn", "easeOut", "easeInOut", "step", "swirl"])
    (hfill : sh.fillMode ∉ ["solid", "distance", "palette", "random"])
    (hsym : g.symmetry ∉ ["horizontal", "vertical", "both", "radial"]) :
    calculateScale sh distR = calculateScale { sh with scaleMode := "linear" } distR ∧
    getFillColor sh colors dist index time = sh.fillColor ∧
    applySymmetry g x y col row cdist center = [⟨x, y, col, row, cdist, true, none⟩] := by
  simp only [List.mem_cons, List.mem_singleton, not_or] at hscale hfill hsym
  obtain ⟨hs1, hs2, hs3, hs4, hs5, hs6, hs7⟩ := hscale
  obtain ⟨hf1, hf2, hf3, hf4⟩ := hfill
  obtain ⟨hy1, hy2, hy3, hy4⟩ := hsym
  refine ⟨?_, ?_, ?_⟩
  · simp [calculateScale, hs1, hs2, hs3, hs4, hs5, hs6, hs7]
  · simp [getFillColor, hf1, hf2, hf3, hf4]
  · simp [applySymmetry, hy1, hy2, hy3, hy4]

/-- Witness for C9 with the unrecognized mode string wobble in all three
positions. -/
theorem C9_unknown_modes_fall_back_witness :
    (({ defaultShape with scaleMode := "wobble", fillMode := "wobble" } : ShapeState).scaleMode ∉
      ["none", "linear", "easeIn", "easeOut", "easeInOut", "step", "swirl"]) ∧
    (({ defaultShape with scaleMode := "wobble", fillMode := "wobble" } : ShapeState).fillMode ∉
      ["solid", "distance", "palette", "random"]) ∧
    (({ defaultGrid with symmetry := "wobble" } : GridState).symmetry ∉
      ["horizontal", "vertical", "both", "radial"]) ∧
    (calculateScale { defaultShape with scaleMode := "wobble", fillMode := "wobble" } (1/2) =
        calculateScale { { defaultShape with scaleMode := "wobble", fillMode := "wobble" }
          with scaleMode := "linear" } (1/2) ∧
      getFillColor { defaultShape with scaleMode := "wobble", fillMode := "wobble" }
          defaultPalette (1/2) 3 0 =
        ({ defaultShape with scaleMode := "wobble", fillMode := "wobble" } : ShapeState).fillColor ∧
      applySymmetry { defaultGrid with symmetry := "wobble" } 30 30 0 0 (JSNum.val (1/2))
          (360, 360) =
        [⟨30, 30, 0, 0, JSNum.val (1/2), true, none⟩]) :=
  ⟨by decide, by decide, by decide,
   C9_unknown_modes_fall_back
     { defaultShape with scaleMode := "wobble", fillMode := "wobble" }
     { defaultGrid with symmetry := "wobble" } defaultPalette
     (1/2) (1/2) 3 0 30 30 0 0 (JSNum.val (1/2)) (360, 360)
     (by decide) (by decide) (by decide)⟩

/-- Helper: the normalized distance at a point whose squared offset from
the center equals the squared half-diagonal is exactly 1 whenever the
half-diagonal is positive. -/
theorem getNormalizedDistance_eq_one_of_sq (g : GridState) (x y : ℝ)
    (hmax : 0 < Real.sqrt ((g.cols * g.cellSize / 2) ^ 2 + (g.rows * g.cellSize / 2) ^ 2))
    (hsq : (x - ((g.cols * g.cellSize) / 2 + g.offsetX)) ^ 2 +
        (y - ((g.rows * g.cellSize) / 2 + g.offsetY)) ^ 2 =
      (g.cols * g.cellSize / 2) ^ 2 + (g.rows * g.cellSize / 2) ^ 2) :
    getNormalizedDistance g x y = JSNum.val 1 := by
  unfold getNormalizedDistance getGridCenter jsDiv jsMin
  simp only [hsq]
  rw [if_neg (ne_of_gt hmax), div_self (ne_of_gt hmax)]
  norm_num

/-- C2: with a zero half-diagonal (cols = rows = 0) getNormalizedDistance
does not return 0 everywhere: at the center it divides 0 by 0 and returns
NaN, and away from the center it divides a positive distance by 0 and the
Math.min clamp of the resulting Infinity yields 1. -/
theorem C2_zero_halfDiagonal_nan_not_zero :
    getNormalizedDistance ⟨0, 0, 60, 0, 0, "none", 6⟩ 0 0 = JSNum.nan ∧
    getNormalizedDistance ⟨0, 0, 60, 0, 0, "none", 6⟩ 30 0 = JSNum.val 1 := by
  constructor
  · unfold getNormalizedDistance getGridCenter jsDiv jsMin
    norm_num
  · unfold getNormalizedDistance getGridCenter jsDiv jsMin
    have h30 : (0:ℝ) < Real.sqrt (((30:ℝ) - ((0:ℕ) * (60:ℝ) / 2 + 0)) ^ 2 +
        ((0:ℝ) - ((0:ℕ) * (60:ℝ) / 2 + 0)) ^ 2) := by
      rw [Real.sqrt_pos]
      norm_num
    norm_num at h30 ⊢

/-- C5: for a positive cell size and at least one row and column, the
normalized distance is exactly 0 at the grid center and exactly 1 at each
of the four corners of the bounding box of the grid. -/
theorem C5_center_zero_corners_one (g : GridState)
    (hcell : 0 < g.cellSize) (hcols : 1 ≤ g.cols) (hrows : 1 ≤ g.rows) :
    getNormalizedDistance g ((g.cols * g.cellSize) / 2 + g.offsetX)
        ((g.rows * g.cellSize) / 2 + g.offsetY) = JSNum.val 0 ∧
    getNormalizedDistance g g.offsetX g.offsetY = JSNum.val 1 ∧
    getNormalizedDistance g (g.cols * g.cellSize + g.offsetX) g.offsetY = JSNum.val 1 ∧
    getNormalizedDistance g g.offsetX (g.rows * g.cellSize + g.offsetY) = JSNum.val 1 ∧
    getNormalizedDistance g (g.cols * g.cellSize + g.offsetX)
        (g.rows * g.cellSize + g.offsetY) = JSNum.val 1 := by
  have hcR : (0:ℝ) < (g.cols : ℝ) := by
    have : (0:ℕ) < g.cols := hcols
    exact_mod_cast this
  have hrR : (0:ℝ) < (g.rows : ℝ) := by
    have : (0:ℕ) < g.rows := hrows
    exact_mod_cast this
  have hsum : 0 < ((g.cols : ℝ) * g.cellSize / 2) ^ 2 + ((g.rows : ℝ) * g.cellSize / 2) ^ 2 := by
    positivity
  have hmax : 0 < Real.sqrt (((g.cols : ℝ) * g.cellSize / 2) ^ 2 +
      ((g.rows : ℝ) * g.cellSize / 2) ^ 2) := Real.sqrt_pos.mpr hsum
  refine ⟨?_, ?_, ?_, ?_, ?_⟩
  · unfold getNormalizedDistance getGridCenter jsDiv jsMin
    have hzero : ((g.cols : ℝ) * g.cellSize / 2 + g.offsetX -
          ((g.cols : ℝ) * g.cellSize / 2 + g.offsetX)) ^ 2 +
        ((g.rows : ℝ) * g.cellSize / 2 + g.offsetY -
          ((g.rows : ℝ) * g.cellSize / 2 + g.offsetY)) ^ 2 = 0 := by ring
    simp only [hzero, Real.sqrt_zero]
    rw [if_neg (ne_of_gt hmax), zero_div]
    norm_num
  · exact getNormalizedDistance_eq_one_of_sq g _ _ hmax (by ring)
  · exact getNormalizedDistance_eq_one_of_sq g _ _ hmax (by ring)
  · exact getNormalizedDistance_eq_one_of_sq g _ _ hmax (by ring)
  · exact getNormalizedDistance_eq_one_of_sq g _ _ hmax (by ring)

/-- Witness for C5 on a one-by-one grid of cell size 2 centered at (1, 1):
distance 0 at the center and 1 at the four corners. -/
theorem C5_center_zero_corners_one_witness :
    (0:ℝ) < (⟨1, 1, 2, 0, 0, "none", 6⟩ : GridState).cellSize ∧
    1 ≤ (⟨1, 1, 2, 0, 0, "none", 6⟩ : GridState).cols ∧
    1 ≤ (⟨1, 1, 2, 0, 0, "none", 6⟩ : GridState).rows ∧
    (getNormalizedDistance ⟨1, 1, 2, 0, 0, "none", 6⟩
        ((((⟨1, 1, 2, 0, 0, "none", 6⟩ : GridState).cols) * (2:ℝ)) / 2 + 0)
        ((((⟨1, 1, 2, 0, 0, "none", 6⟩ : GridState).rows) * (2:ℝ)) / 2 + 0) = JSNum.val 0 ∧
      getNormalizedDistance ⟨1, 1, 2, 0, 0, "none", 6⟩ 0 0 = JSNum.val 1 ∧
      getNormalizedDistance ⟨1, 1, 2, 0, 0, "none", 6⟩
        ((((⟨1, 1, 2, 0, 0, "none", 6⟩ : GridState).cols) * (2:ℝ)) + 0) 0 = JSNum.val 1 ∧
      getNormalizedDistance ⟨1, 1, 2, 0, 0, "none", 6⟩ 0
        ((((⟨1, 1, 2, 0, 0, "none", 6⟩ : GridState).rows) * (2:ℝ)) + 0) = JSNum.val 1 ∧
      getNormalizedDistance ⟨1, 1, 2, 0, 0, "none", 6⟩
        ((((⟨1, 1, 2, 0, 0, "none", 6⟩ : GridState).cols) * (2:ℝ)) + 0)
        ((((⟨1, 1, 2, 0, 0, "none", 6⟩ : GridState).rows) * (2:ℝ)) + 0) = JSNum.val 1) :=
  ⟨by norm_num, by norm_num, by norm_num,
   C5_center_zero_corners_one ⟨1, 1, 2, 0, 0, "none", 6⟩
     (by norm_num) (by norm_num) (by norm_num)⟩


